import Mathlib

/-
Verification development for the mcp-redis connection-pool core
(src/common/connection.py and src/tools/connection_management.py).

The Python code is shallowly embedded: dictionaries become association
lists preserving insertion order (Python 3.7+ dict semantics, which the
code relies on via `next(iter(keys))`), client objects become natural
number handles allocated from a counter, and the outcome of each client
construction + liveness probe (`redis_class(**params)` / `ping()`) and of
each `info("server")` query is supplied by an environment oracle, since
those are network effects.  Python exceptions become an `Except`-valued
result paired with the post-state, because a raising call can still have
mutated the pool.
-/

namespace McpRedis

/-- A Python value stored in a configuration dictionary (string, integer
or boolean); `Option Value` models a possibly-`None` dict entry. -/
inductive Value where
  | str (s : String)
  | nat (n : Nat)
  | bool (b : Bool)
  deriving DecidableEq, Repr

/-- The configuration-record keys used by the repository (the `connect`
tool in src/tools/connection_management.py builds config dicts with
exactly these keys, and the URI parser produces the same shape). -/
inductive ConfigKey where
  | host | port | db | username | password | ssl
  | ssl_ca_path | ssl_keyfile | ssl_certfile | ssl_cert_reqs | ssl_ca_certs
  | cluster_mode
  deriving DecidableEq, Repr

/-- A configuration dictionary: insertion-ordered keys, values possibly
`None` (`none`). -/
abbrev Config := List (ConfigKey × Option Value)

abbrev HostId := String

/-- The `DecodeResponsesType` enum from connection.py. -/
inductive DecodeResponsesType where
  | DECODED
  | RAW
  deriving DecidableEq, Repr

/-- Python `.value` of the enum members. -/
def DecodeResponsesType.value : DecodeResponsesType → String
  | .DECODED => "decoded"
  | .RAW => "raw"

/-- Translation of `DecodeResponsesType.DECODED if decode_responses else DecodeResponsesType.RAW`. -/
def decodeTypeOf (decode_responses : Bool) : DecodeResponsesType :=
  if decode_responses then .DECODED else .RAW

/-! ### Association-list (Python dict) primitives -/

/-- Dict lookup: value of the first entry with the given key. -/
def alookup {α β : Type} [DecidableEq α] (k : α) : List (α × β) → Option β
  | [] => none
  | (a, b) :: t => if a = k then some b else alookup k t

/-- Dict assignment `d[k] = v`: overwrite in place if present, else append
(Python dicts keep the original insertion position on overwrite). -/
def aupsert {α β : Type} [DecidableEq α] (k : α) (v : β) : List (α × β) → List (α × β)
  | [] => [(k, v)]
  | (a, b) :: t => if a = k then (k, v) :: t else (a, b) :: aupsert k v t

/-- Modify the value stored at a key, leaving other entries alone. -/
def aupdate {α β : Type} [DecidableEq α] (k : α) (f : β → β) : List (α × β) → List (α × β)
  | [] => []
  | (a, b) :: t => if a = k then (a, f b) :: t else (a, b) :: aupdate k f t

/-- Dict deletion `del d[k]` / `d.pop(k, None)`: drop the entry if present. -/
def aerase {α β : Type} [DecidableEq α] (k : α) : List (α × β) → List (α × β)
  | [] => []
  | (a, b) :: t => if a = k then t else (a, b) :: aerase k t

theorem alookup_aupsert_self {α β : Type} [DecidableEq α] (k : α) (v : β)
    (l : List (α × β)) : alookup k (aupsert k v l) = some v := by
  induction l with
  | nil => simp [aupsert, alookup]
  | cons hd t ih =>
      obtain ⟨a, b⟩ := hd
      by_cases h : a = k
      · simp [aupsert, h, alookup]
      · simp [aupsert, h, alookup, ih]

theorem alookup_aupsert_ne {α β : Type} [DecidableEq α] (k k' : α) (v : β)
    (l : List (α × β)) (h : k ≠ k') :
    alookup k' (aupsert k v l) = alookup k' l := by
  induction l with
  | nil => simp [aupsert, alookup, h]
  | cons hd t ih =>
      obtain ⟨a, b⟩ := hd
      by_cases ha : a = k
      · subst ha
        simp [aupsert, alookup, h]
      · simp [aupsert, ha, alookup, ih]

theorem alookup_aupdate_self {α β : Type} [DecidableEq α] (k : α) (f : β → β)
    (l : List (α × β)) :
    alookup k (aupdate k f l) = (alookup k l).map f := by
  induction l with
  | nil => simp [aupdate, alookup]
  | cons hd t ih =>
      obtain ⟨a, b⟩ := hd
      by_cases h : a = k
      · simp [aupdate, h, alookup]
      · simp [aupdate, h, alookup, ih]

theorem alookup_aupdate_ne {α β : Type} [DecidableEq α] (k k' : α) (f : β → β)
    (l : List (α × β)) (h : k ≠ k') :
    alookup k' (aupdate k f l) = alookup k' l := by
  induction l with
  | nil => rfl
  | cons hd t ih =>
      obtain ⟨a, b⟩ := hd
      by_cases ha : a = k
      · subst ha
        simp [aupdate, alookup, h]
      · simp [aupdate, ha, alookup, ih]

theorem alookup_append_right {α β : Type} [DecidableEq α] (k : α)
    (l l' : List (α × β)) (h : alookup k l = none) :
    alookup k (l ++ l') = alookup k l' := by
  induction l with
  | nil => simp
  | cons hd t ih =>
      obtain ⟨a, b⟩ := hd
      by_cases ha : a = k
      · simp [alookup, ha] at h
      · simp only [alookup, ha, if_false, List.cons_append] at h ⊢
        exact ih h

/-! ### ConnectionParams builder (`_create_connection_params`) -/

/-- Modelled from the spec: the version string imported from src/version.py
(file not in the source tree); its exact value is irrelevant to every claim. -/
def redis_mcp_version : String := "1.0.0"

/-- The `lib_name` client-identification tag. -/
def lib_name_tag : String := "redis-py(mcp-server_v" ++ redis_mcp_version ++ ")"

/-- Python truthiness of a stored value (used by `if cluster_mode:`). -/
def Value.truthy : Value → Bool
  | .str s => !s.isEmpty
  | .nat n => n != 0
  | .bool b => b

/-- Translation of `config.get("cluster_mode", False)` used as a boolean condition. -/
def configClusterMode (config : Config) : Bool :=
  match alookup ConfigKey.cluster_mode config with
  | some (some v) => v.truthy
  | _ => false

/-- Python `config.get(key, default)`: the stored entry (possibly `None`) when the
key is present, else the default. -/
def dictGet (config : Config) (k : ConfigKey) (d : Value) : Option Value :=
  match alookup k config with
  | some v => v
  | none => some d

/-- The parameter dictionary produced by `_create_connection_params`.  The
driver-parameter keys (`decode_responses`, `lib_name`, `startup_nodes`,
`max_connections_per_node`, `max_connections`) are distinct from every
configuration key, so they are separate fields; the copied configuration
entries live in `fields`.  A startup node carries the raw `host` and
`port` dict values (possibly `None`). -/
structure ConnectionParams where
  decode_responses : Bool
  lib_name : String
  startup_nodes : Option (List (Option Value × Option Value))
  max_connections_per_node : Option Nat
  max_connections : Option Nat
  fields : List (ConfigKey × Value)
  deriving DecidableEq, Repr

def cluster_incompatible_keys : List ConfigKey :=
  [ConfigKey.host, ConfigKey.port, ConfigKey.db, ConfigKey.cluster_mode]

/-- Translation of `RedisConnectionPool._create_connection_params` (connection.py 36-65).
A Python dict has unique keys, so the `for key, value in config.items()`
copy loop is a filter of the entries. -/
def create_connection_params (config : Config) (decode_responses : Bool) :
    ConnectionParams :=
  if configClusterMode config then
    { decode_responses := decode_responses
      lib_name := lib_name_tag
      startup_nodes :=
        some [(dictGet config ConfigKey.host (Value.str "127.0.0.1"),
               dictGet config ConfigKey.port (Value.nat 6379))]
      max_connections_per_node := some 10
      max_connections := none
      fields := config.filterMap fun kv =>
        match kv.2 with
        | some v =>
            if kv.1 ∈ cluster_incompatible_keys then none else some (kv.1, v)
        | none => none }
  else
    { decode_responses := decode_responses
      lib_name := lib_name_tag
      startup_nodes := none
      max_connections_per_node := none
      max_connections := some 10
      fields := config.filterMap fun kv =>
        match kv.2 with
        | some v =>
            if kv.1 = ConfigKey.cluster_mode then none else some (kv.1, v)
        | none => none }

/-! ### Pool state, environment oracle and registry operations -/

/-- Outcome of one client construction + liveness probe
(`redis_class(**connection_params)` followed by `connection.ping()`). -/
inductive BuildResult where
  | ok
  | fail (detail : String)
  deriving DecidableEq, Repr

/-- Network-effect oracle.  `build n` is the outcome of the n-th client
construction attempt in the process (handles are allocated from the same
counter); `info h` is the outcome of `conn.info("server")` on handle `h`,
giving the server-info dictionary or the raised error's text. -/
structure Env where
  build : Nat → BuildResult
  info : Nat → Except String (List (String × String))

/-- The mutable state of the `RedisConnectionPool` singleton:
`_connections` (host id → decode-mode → client handle), `_configs`,
`_default_host`, plus the handle-allocation counter of the embedding. -/
structure PoolState where
  connections : List (HostId × List (DecodeResponsesType × Nat))
  configs : List (HostId × Config)
  defaultHost : Option HostId
  nextHandle : Nat
  deriving DecidableEq, Repr

/-- The state after `__init__` of the singleton. -/
def initialState : PoolState :=
  { connections := [], configs := [], defaultHost := none, nextHandle := 0 }

/-- The exceptions raised by the pool (each Python `raise` site carries a
message; the constructors keep the data interpolated into it). -/
inductive PoolError where
  | noConnectionsAvailable
  | hostNotFound (host_id : HostId) (known : List HostId)
  | connectFailed (host_id : HostId) (detail : String)
  | lazyCreateFailed (host_id : HostId) (mode : DecodeResponsesType) (detail : String)
  | keyError (host_id : HostId)
  deriving DecidableEq, Repr

/-- Translation of `RedisConnectionPool.add_connection` (connection.py 71-111).  Returns
the post-state paired with the success message or the raised error — the
Python failure path re-raises AFTER `self._connections[host_id] = {}` has
already run, so the mutation survives the exception.  All seven `except`
arms wrap the failure into an `Exception` naming the host id; they are
modelled as `connectFailed` with the oracle's detail text. -/
def add_connection (env : Env) (s : PoolState) (host_id : HostId)
    (config : Config) (decode_responses : Bool) :
    PoolState × Except PoolError String :=
  let conns1 :=
    if (alookup host_id s.connections).isSome then s.connections
    else s.connections ++ [(host_id, [])]
  let decode_type := decodeTypeOf decode_responses
  match env.build s.nextHandle with
  | .fail detail =>
      ({ s with connections := conns1, nextHandle := s.nextHandle + 1 },
       Except.error (PoolError.connectFailed host_id detail))
  | .ok =>
      ({ connections := aupdate host_id (aupsert decode_type s.nextHandle) conns1
         configs := aupsert host_id config s.configs
         defaultHost := if s.defaultHost = none then some host_id else s.defaultHost
         nextHandle := s.nextHandle + 1 },
       Except.ok ("Successfully connected to Redis at " ++ host_id ++
                  " (" ++ decode_type.value ++ " mode)"))

/-- Translation of `RedisConnectionPool.get_connection` (connection.py 113-141).  The
returned `Nat` is the client handle.  `keyError` models the uncaught
`KeyError` from `self._configs[host_id]` when a host is registered in
`_connections` without a stored config. -/
def get_connection (env : Env) (s : PoolState) (host_id? : Option HostId)
    (decode_responses : Bool) : PoolState × Except PoolError Nat :=
  let h1 := match host_id? with
    | none => s.defaultHost
    | some h => some h
  match h1 with
  | none => (s, Except.error PoolError.noConnectionsAvailable)
  | some host_id =>
    match alookup host_id s.connections with
    | none =>
        (s, Except.error
              (PoolError.hostNotFound host_id (s.connections.map Prod.fst)))
    | some variants =>
      let decode_type := decodeTypeOf decode_responses
      match alookup decode_type variants with
      | some conn => (s, Except.ok conn)
      | none =>
        match alookup host_id s.configs with
        | none => (s, Except.error (PoolError.keyError host_id))
        | some _config =>
          match env.build s.nextHandle with
          | .fail detail =>
              ({ s with nextHandle := s.nextHandle + 1 },
               Except.error
                 (PoolError.lazyCreateFailed host_id decode_type detail))
          | .ok =>
              ({ s with
                 connections :=
                   aupdate host_id (aupsert decode_type s.nextHandle) s.connections
                 nextHandle := s.nextHandle + 1 },
               Except.ok s.nextHandle)

/-- One per-host snapshot of `list_connections` (connection.py 143-177).
`redis_version` is present only in the connected case.  The detail fields
hold the raw dict values (possibly `None`); the `getattr(conn, ..., 'unknown')`
fallbacks evaluate to `'unknown'` because the redis-py client objects expose
no plain `host`/`port`/`db` attributes. -/
structure ConnInfo where
  status : String
  redis_version : Option String
  host : Option Value
  port : Option Value
  db : Option Value
  cluster_mode : Option Value
  ssl : Option Value
  is_default : Bool
  available_modes : List String
  deriving DecidableEq, Repr

/-- Translation of `conn_dict.get(DECODED) or conn_dict.get(RAW)` (client objects are
truthy). -/
def pickConn (variants : List (DecodeResponsesType × Nat)) : Option Nat :=
  match alookup DecodeResponsesType.DECODED variants with
  | some c => some c
  | none => alookup DecodeResponsesType.RAW variants

/-- Translation of `RedisConnectionPool.list_connections` (connection.py 143-177).  Pure:
the only statement in the `try` body that can raise is `conn.info("server")`,
whose outcome the oracle supplies; the `except` arm builds the error entry.
A host whose variant dict is empty yields no `conn` and is skipped
(`if conn:` is false). -/
def list_connections (env : Env) (s : PoolState) : List (HostId × ConnInfo) :=
  s.connections.filterMap fun hv =>
    let host_id := hv.1
    let conn_dict := hv.2
    match pickConn conn_dict with
    | none => none
    | some conn =>
      let config := (alookup host_id s.configs).getD []
      match env.info conn with
      | Except.ok info =>
          some (host_id,
            { status := "connected"
              redis_version := some ((alookup "redis_version" info).getD "unknown")
              host := dictGet config ConfigKey.host (Value.str "unknown")
              port := dictGet config ConfigKey.port (Value.str "unknown")
              db := dictGet config ConfigKey.db (Value.str "unknown")
              cluster_mode := dictGet config ConfigKey.cluster_mode (Value.bool false)
              ssl := dictGet config ConfigKey.ssl (Value.bool false)
              is_default := s.defaultHost = some host_id
              available_modes := conn_dict.map fun dv => dv.1.value })
      | Except.error e =>
          some (host_id,
            { status := "error: " ++ e
              redis_version := none
              host := dictGet config ConfigKey.host (Value.str "unknown")
              port := dictGet config ConfigKey.port (Value.str "unknown")
              db := dictGet config ConfigKey.db (Value.str "unknown")
              cluster_mode := dictGet config ConfigKey.cluster_mode (Value.bool false)
              ssl := dictGet config ConfigKey.ssl (Value.bool false)
              is_default := s.defaultHost = some host_id
              available_modes := conn_dict.map fun dv => dv.1.value })

/-- Translation of `RedisConnectionPool.remove_connection` (connection.py 224-248).
Closing the cached handles is a best-effort loop whose failures are
swallowed (`except: pass`), and a handle has no further modelled state, so
the close loop contributes nothing to the post-state.  The default, when
it pointed at the removed host, becomes `next(iter(keys))` of the
remaining dict — its first key — or `None` when empty. -/
def remove_connection (s : PoolState) (host_id : HostId) : PoolState × String :=
  match alookup host_id s.connections with
  | none => (s, "No connection found for host \x27" ++ host_id ++ "\x27")
  | some _ =>
      let conns := aerase host_id s.connections
      let cfgs := aerase host_id s.configs
      let newDefault :=
        if s.defaultHost = some host_id then (conns.map Prod.fst).head?
        else s.defaultHost
      ({ s with connections := conns, configs := cfgs, defaultHost := newDefault },
       "Connection to \x27" ++ host_id ++ "\x27 removed successfully")

/-- Modelled from the spec: `RedisConfig` from src/common/config.py (file
not in the source tree) — the process-wide default configuration record
with environment-sourced fields; the facade reads its `host` and `port`
items and passes its `.config` dictionary to `add_connection`. -/
structure RedisConfig where
  host : String
  port : Nat
  config : Config
  deriving DecidableEq, Repr

/-- Translation of `RedisConnectionManager.get_connection` (connection.py 292-311), the
legacy facade: substitutes the default host id, auto-provisions a default
connection from `RedisConfig` under host id `host:port` when the registry
is empty and no host id resulted, then delegates to the pool's
`get_connection`.  A failure of the auto-provisioning `add_connection`
propagates (with its state mutation). -/
def manager_get_connection (env : Env) (dc : RedisConfig) (s : PoolState)
    (host_id? : Option HostId) (decode_responses : Bool) :
    PoolState × Except PoolError Nat :=
  let h1 := match host_id? with
    | none => s.defaultHost
    | some h => some h
  if s.connections.isEmpty && h1.isNone then
    let default_host_id := dc.host ++ ":" ++ toString dc.port
    let r := add_connection env s default_host_id dc.config decode_responses
    match r.2 with
    | Except.error e => (r.1, Except.error e)
    | Except.ok _ => get_connection env r.1 (some default_host_id) decode_responses
  else
    get_connection env s h1 decode_responses

/-- The `switch_default_connection` tool (connection_management.py 154-176).
Nothing in its `try` body can raise, so the `except` arm is dead code. -/
def switch_default_connection (s : PoolState) (host_id : HostId) :
    PoolState × String :=
  if (alookup host_id s.connections).isSome then
    ({ s with defaultHost := some host_id },
     "Default connection switched to \x27" ++ host_id ++ "\x27")
  else
    (s, "Connection \x27" ++ host_id ++ "\x27 not found. Available connections: " ++
        toString (s.connections.map Prod.fst))

/-! ### Operation sequences over the shared singleton -/

/-- One call against the singleton: the pool operations, the legacy facade
and the default-switch tool. -/
inductive Op where
  | add (host_id : HostId) (config : Config) (decode_responses : Bool)
  | get (host_id? : Option HostId) (decode_responses : Bool)
  | remove (host_id : HostId)
  | listConns
  | facadeGet (dc : RedisConfig) (host_id? : Option HostId) (decode_responses : Bool)
  | switchDefault (host_id : HostId)

/-- The state after one call (whether it returned or raised). -/
def step (env : Env) (s : PoolState) : Op → PoolState
  | Op.add h c d => (add_connection env s h c d).1
  | Op.get h d => (get_connection env s h d).1
  | Op.remove h => (remove_connection s h).1
  | Op.listConns => s
  | Op.facadeGet dc h d => (manager_get_connection env dc s h d).1
  | Op.switchDefault h => (switch_default_connection s h).1

/-- The state after a sequence of calls. -/
def runOps (env : Env) (s : PoolState) : List Op → PoolState
  | [] => s
  | op :: t => runOps env (step env s op) t

/-- An `add_connection` call's arguments. -/
abbrev AddCall := HostId × Config × Bool

/-- Run a sequence of `add_connection` calls (ignoring raised errors, which
leave their state mutation behind). -/
def runAdds (env : Env) (s : PoolState) : List AddCall → PoolState
  | [] => s
  | (h, c, d) :: t => runAdds env (add_connection env s h c d).1 t

/-- The host id of the first `add_connection` call in the sequence whose
build succeeds, when construction attempts are numbered from `n`
(each call consumes exactly one attempt). -/
def firstSuccessfulHost (env : Env) (n : Nat) : List AddCall → Option HostId
  | [] => none
  | (h, _, _) :: t =>
      match env.build n with
      | BuildResult.ok => some h
      | BuildResult.fail _ => firstSuccessfulHost env (n + 1) t

/-! ### Concrete environments used by witnesses and counterexamples -/

/-- Every construction succeeds and every info probe answers. -/
def envAllOk : Env :=
  { build := fun _ => BuildResult.ok
    info := fun _ => Except.ok [("redis_version", "7.2.0")] }

/-- Every construction and every info probe fails. -/
def envAllFail : Env :=
  { build := fun _ => BuildResult.fail "Connection refused"
    info := fun _ => Except.error "Connection refused" }

/-! ### Helper lemmas -/

theorem mem_filterMap_excl (config : Config) (excl : List ConfigKey)
    (k : ConfigKey) (v : Value) :
    ((k, v) ∈ config.filterMap fun kv =>
      match kv.2 with
      | some w => if kv.1 ∈ excl then none else some (kv.1, w)
      | none => none) ↔ ((k, some v) ∈ config ∧ k ∉ excl) := by
  rw [List.mem_filterMap]
  constructor
  · rintro ⟨⟨k', w?⟩, hmem, hf⟩
    match w? with
    | none => simp at hf
    | some w =>
        by_cases hk : k' ∈ excl
        · simp [hk] at hf
        · simp only [hk, if_false, Option.some.injEq, Prod.mk.injEq] at hf
          obtain ⟨hk1, hv1⟩ := hf
          subst hk1
          subst hv1
          exact ⟨hmem, hk⟩
  · rintro ⟨hmem, hk⟩
    exact ⟨(k, some v), hmem, by simp [hk]⟩

theorem mem_filterMap_ne_cm (config : Config) (k : ConfigKey) (v : Value) :
    ((k, v) ∈ config.filterMap fun kv =>
      match kv.2 with
      | some w => if kv.1 = ConfigKey.cluster_mode then none else some (kv.1, w)
      | none => none) ↔ ((k, some v) ∈ config ∧ k ≠ ConfigKey.cluster_mode) := by
  rw [List.mem_filterMap]
  constructor
  · rintro ⟨⟨k', w?⟩, hmem, hf⟩
    match w? with
    | none => simp at hf
    | some w =>
        by_cases hk : k' = ConfigKey.cluster_mode
        · simp [hk] at hf
        · simp only [hk, if_false, Option.some.injEq, Prod.mk.injEq] at hf
          obtain ⟨hk1, hv1⟩ := hf
          subst hk1
          subst hv1
          exact ⟨hmem, hk⟩
  · rintro ⟨hmem, hk⟩
    exact ⟨(k, some v), hmem, by simp [hk]⟩

/-! ### Claim theorems -/

/-- C1 (code bug): the registry invariant "a non-empty connection-entry map
implies a default host id referencing an existing entry" is broken by the
code: `add_connection` inserts `self._connections[host_id] = {}` before
building and probing the client, and its failure path re-raises without
removing that entry — a failed first `add_connection` leaves a non-empty
map with no default, no stored config, and a subsequent `get_connection`
for that host dies with an unclassified `KeyError` from
`self._configs[host_id]`. -/
theorem add_failure_leaves_ghost_entry :
    ((add_connection envAllFail initialState "10.0.0.5:6379" [] true).1).connections =
        [("10.0.0.5:6379", [])] ∧
    ((add_connection envAllFail initialState "10.0.0.5:6379" [] true).1).defaultHost =
        none ∧
    (add_connection envAllFail initialState "10.0.0.5:6379" [] true).2 =
        Except.error (PoolError.connectFailed "10.0.0.5:6379" "Connection refused") ∧
    (get_connection envAllFail
        (add_connection envAllFail initialState "10.0.0.5:6379" [] true).1
        (some "10.0.0.5:6379") true).2 =
      Except.error (PoolError.keyError "10.0.0.5:6379") := by
  refine ⟨rfl, rfl, rfl, rfl⟩

/-- C6: `_create_connection_params` is total, always sets the
decode-responses flag and the client-identification tag, and: in cluster
mode builds a one-element startup-node list from the config's raw host and
port entries (`127.0.0.1`/`6379` when absent), caps connections per node at
10, sets no max-total-connections cap, and copies exactly the non-null
config fields outside {host, port, db, cluster_mode} (so no database-index
field); in standalone mode caps total connections at 10, sets no per-node
cap and no startup nodes, and copies exactly the non-null config fields
other than cluster_mode (so `db` is included when set). -/
theorem create_connection_params_spec (config : Config) (decode_responses : Bool) :
    ((create_connection_params config decode_responses).decode_responses =
        decode_responses ∧
     (create_connection_params config decode_responses).lib_name = lib_name_tag) ∧
    (configClusterMode config = true →
      (create_connection_params config decode_responses).startup_nodes =
        some [(dictGet config ConfigKey.host (Value.str "127.0.0.1"),
               dictGet config ConfigKey.port (Value.nat 6379))] ∧
      (alookup ConfigKey.host config = none ∧ alookup ConfigKey.port config = none →
        (create_connection_params config decode_responses).startup_nodes =
          some [(some (Value.str "127.0.0.1"), some (Value.nat 6379))]) ∧
      (create_connection_params config decode_responses).max_connections_per_node =
        some 10 ∧
      (create_connection_params config decode_responses).max_connections = none ∧
      (∀ k v, (k, v) ∈ (create_connection_params config decode_responses).fields ↔
        ((k, some v) ∈ config ∧ k ∉ cluster_incompatible_keys)) ∧
      (∀ v, (ConfigKey.db, v) ∉
        (create_connection_params config decode_responses).fields)) ∧
    (configClusterMode config = false →
      (create_connection_params config decode_responses).max_connections = some 10 ∧
      (create_connection_params config decode_responses).max_connections_per_node =
        none ∧
      (create_connection_params config decode_responses).startup_nodes = none ∧
      (∀ k v, (k, v) ∈ (create_connection_params config decode_responses).fields ↔
        ((k, some v) ∈ config ∧ k ≠ ConfigKey.cluster_mode))) := by
  by_cases hc : configClusterMode config
  · refine ⟨⟨?_, ?_⟩, fun _ => ⟨?_, ?_, ?_, ?_, ?_, ?_⟩, fun hfalse => absurd hc ?_⟩
    · simp [create_connection_params, hc]
    · simp [create_connection_params, hc]
    · simp [create_connection_params, hc]
    · rintro ⟨hh, hp⟩
      simp [create_connection_params, hc, dictGet, hh, hp]
    · simp [create_connection_params, hc]
    · simp [create_connection_params, hc]
    · intro k v
      simpa [create_connection_params, hc] using
        mem_filterMap_excl config cluster_incompatible_keys k v
    · intro v hmem
      rw [show (create_connection_params config decode_responses).fields =
            config.filterMap fun kv =>
              match kv.2 with
              | some w =>
                  if kv.1 ∈ cluster_incompatible_keys then none else some (kv.1, w)
              | none => none from by simp [create_connection_params, hc]] at hmem
      have := (mem_filterMap_excl config cluster_incompatible_keys ConfigKey.db v).1 hmem
      exact this.2 (by simp [cluster_incompatible_keys])
    · simp [hfalse]
  · have hc' : configClusterMode config = false := by
      simpa using hc
    refine ⟨⟨?_, ?_⟩, fun htrue => absurd htrue (by simp [hc']), fun _ => ⟨?_, ?_, ?_, ?_⟩⟩
    · simp [create_connection_params, hc']
    · simp [create_connection_params, hc']
    · simp [create_connection_params, hc']
    · simp [create_connection_params, hc']
    · simp [create_connection_params, hc']
    · intro k v
      simpa [create_connection_params, hc'] using mem_filterMap_ne_cm config k v

/-- Witness for C6 at a concrete standalone config with `db = 3`. -/
theorem create_connection_params_spec_witness :
    (create_connection_params
        [(ConfigKey.host, some (Value.str "127.0.0.1")),
         (ConfigKey.port, some (Value.nat 6379)),
         (ConfigKey.db, some (Value.nat 3)),
         (ConfigKey.cluster_mode, some (Value.bool false))] true).max_connections =
      some 10 ∧
    (ConfigKey.db, Value.nat 3) ∈
      (create_connection_params
        [(ConfigKey.host, some (Value.str "127.0.0.1")),
         (ConfigKey.port, some (Value.nat 6379)),
         (ConfigKey.db, some (Value.nat 3)),
         (ConfigKey.cluster_mode, some (Value.bool false))] true).fields := by
  have h := create_connection_params_spec
    [(ConfigKey.host, some (Value.str "127.0.0.1")),
     (ConfigKey.port, some (Value.nat 6379)),
     (ConfigKey.db, some (Value.nat 3)),
     (ConfigKey.cluster_mode, some (Value.bool false))] true
  refine ⟨(h.2.2 (by decide)).1, ?_⟩
  exact ((h.2.2 (by decide)).2.2.2 ConfigKey.db (Value.nat 3)).2 ⟨by decide, by decide⟩

theorem alookup_eq_none_of_not_mem {α β : Type} [DecidableEq α] (k : α)
    (l : List (α × β)) (h : k ∉ l.map Prod.fst) :
    alookup k l = none := by
  induction l with
  | nil => rfl
  | cons hd t ih =>
      obtain ⟨a, b⟩ := hd
      simp only [List.map_cons, List.mem_cons, not_or] at h
      have ha : a ≠ k := fun hak => h.1 hak.symm
      simp only [alookup, ha, if_false]
      exact ih h.2

theorem alookup_aerase_self {α β : Type} [DecidableEq α] (k : α)
    (l : List (α × β)) (h : (l.map Prod.fst).Nodup) :
    alookup k (aerase k l) = none := by
  induction l with
  | nil => rfl
  | cons hd t ih =>
      obtain ⟨a, b⟩ := hd
      simp only [List.map_cons, List.nodup_cons] at h
      by_cases ha : a = k
      · subst ha
        simp only [aerase, if_pos rfl]
        exact alookup_eq_none_of_not_mem a t h.1
      · simp only [aerase, ha, if_false, alookup, ha]
        exact ih h.2

theorem alookup_aerase_ne {α β : Type} [DecidableEq α] (k k' : α)
    (l : List (α × β)) (h : k ≠ k') :
    alookup k' (aerase k l) = alookup k' l := by
  induction l with
  | nil => rfl
  | cons hd t ih =>
      obtain ⟨a, b⟩ := hd
      by_cases ha : a = k
      · subst ha
        simp [aerase, alookup, h]
      · simp only [aerase, ha, if_false, alookup]
        by_cases ha' : a = k'
        · simp [ha']
        · simp [ha', ih]

theorem mem_keys_of_alookup_isSome {α β : Type} [DecidableEq α] (k : α)
    (l : List (α × β)) (h : (alookup k l).isSome) :
    k ∈ l.map Prod.fst := by
  induction l with
  | nil => simp [alookup] at h
  | cons hd t ih =>
      obtain ⟨a, b⟩ := hd
      by_cases ha : a = k
      · subst ha
        simp
      · simp only [alookup, ha, if_false] at h
        simp only [List.map_cons, List.mem_cons]
        exact Or.inr (ih h)

theorem mem_of_head?_eq {α : Type} (l : List α) (x : α) (h : l.head? = some x) :
    x ∈ l := by
  cases l with
  | nil => simp at h
  | cons a t =>
      simp only [List.head?_cons, Option.some.injEq] at h
      subst h
      exact List.mem_cons_self a t

/-- A shared concrete two-host pool state for witnesses. -/
def poolAB : PoolState :=
  { connections := [("a", [(DecodeResponsesType.DECODED, 0)]),
                    ("b", [(DecodeResponsesType.RAW, 1)])]
    configs := [("a", []), ("b", [])]
    defaultHost := some "a"
    nextHandle := 2 }

/-- C5: `remove_connection(H)` on an unknown `H` returns the not-found
message and leaves the registry untouched; on a known `H` it returns the
success message naming `H`, deletes `H`'s entry and stored config while
leaving every other host's entry and config unchanged, keeps the default
when `H` was not the default, and otherwise reassigns it to a member of
the remaining host set (or `none` exactly when the registry became empty),
after which a host-less `get_connection` raises `noConnectionsAvailable`.
Closing the cached handles is best-effort with failures swallowed, so it
contributes no observable state.  The `Nodup` hypotheses say the two dicts
have unique keys, which Python dictionaries guarantee. -/
theorem remove_connection_spec (env : Env) (s : PoolState) (H : HostId)
    (hnc : (s.connections.map Prod.fst).Nodup)
    (hcf : (s.configs.map Prod.fst).Nodup) :
    (alookup H s.connections = none →
        remove_connection s H =
          (s, "No connection found for host \x27" ++ H ++ "\x27")) ∧
    ((alookup H s.connections).isSome →
        (remove_connection s H).2 =
          "Connection to \x27" ++ H ++ "\x27 removed successfully" ∧
        alookup H ((remove_connection s H).1).connections = none ∧
        alookup H ((remove_connection s H).1).configs = none ∧
        (∀ K, K ≠ H →
          alookup K ((remove_connection s H).1).connections =
            alookup K s.connections ∧
          alookup K ((remove_connection s H).1).configs = alookup K s.configs) ∧
        (s.defaultHost ≠ some H →
          ((remove_connection s H).1).defaultHost = s.defaultHost) ∧
        (s.defaultHost = some H →
          (((remove_connection s H).1).defaultHost = none ↔
            ((remove_connection s H).1).connections = []) ∧
          (∀ x, ((remove_connection s H).1).defaultHost = some x →
            x ∈ ((remove_connection s H).1).connections.map Prod.fst)) ∧
        (((remove_connection s H).1).defaultHost = none →
          ∀ d, (get_connection env ((remove_connection s H).1) none d).2 =
            Except.error PoolError.noConnectionsAvailable)) := by
  constructor
  · intro hnone
    simp [remove_connection, hnone]
  · intro hsome
    obtain ⟨variants, hlook⟩ := Option.isSome_iff_exists.1 hsome
    refine ⟨?_, ?_, ?_, ?_, ?_, ?_, ?_⟩
    · simp [remove_connection, hlook]
    · simp only [remove_connection, hlook]
      exact alookup_aerase_self H s.connections hnc
    · simp only [remove_connection, hlook]
      exact alookup_aerase_self H s.configs hcf
    · intro K hK
      simp only [remove_connection, hlook]
      exact ⟨alookup_aerase_ne H K s.connections (fun h => hK h.symm),
             alookup_aerase_ne H K s.configs (fun h => hK h.symm)⟩
    · intro hne
      simp [remove_connection, hlook, hne]
    · intro hdef
      simp only [remove_connection, hlook, hdef, if_true]
      constructor
      · constructor
        · rw [List.head?_eq_none_iff]
          intro hmap
          exact List.map_eq_nil_iff.1 hmap
        · intro hconns
          rw [hconns]
          rfl
      · intro x hx
        exact mem_of_head?_eq _ x hx
    · intro hdefnone d
      simp [get_connection, hdefnone]

/-- Witness for C5: removing the default host `a` from `poolAB` deletes its
entry and promotes `b`. -/
theorem remove_connection_spec_witness :
    (remove_connection poolAB "a").2 =
      "Connection to \x27a\x27 removed successfully" ∧
    alookup "a" ((remove_connection poolAB "a").1).connections = none ∧
    ((remove_connection poolAB "a").1).defaultHost = some "b" := by
  have h := (remove_connection_spec envAllOk poolAB "a" (by decide) (by decide)).2
    (by decide)
  refine ⟨h.1, h.2.1, ?_⟩
  rfl

/-- C10 (implicit tool operation): `switch_default_connection(host_id)`
sets the default to a registered host id, returns a not-found message
listing the registered hosts for an unregistered one while changing
nothing, and therefore preserves the default-references-an-existing-entry
invariant. -/
theorem switch_default_connection_spec (s : PoolState) (H : HostId) :
    ((alookup H s.connections).isSome →
      switch_default_connection s H =
        ({ s with defaultHost := some H },
         "Default connection switched to \x27" ++ H ++ "\x27")) ∧
    (alookup H s.connections = none →
      switch_default_connection s H =
        (s, "Connection \x27" ++ H ++ "\x27 not found. Available connections: " ++
            toString (s.connections.map Prod.fst))) ∧
    ((∀ x, s.defaultHost = some x → x ∈ s.connections.map Prod.fst) →
      ∀ x, ((switch_default_connection s H).1).defaultHost = some x →
        x ∈ ((switch_default_connection s H).1).connections.map Prod.fst) := by
  by_cases hs : (alookup H s.connections).isSome
  · refine ⟨fun _ => ?_, fun hnone => ?_, fun hinv x hx => ?_⟩
    · simp [switch_default_connection, hs]
    · rw [hnone] at hs
      simp at hs
    · simp only [switch_default_connection, hs, if_pos, Option.some.injEq] at hx ⊢
      subst hx
      exact mem_keys_of_alookup_isSome H s.connections hs
  · have hnone : alookup H s.connections = none :=
      Option.not_isSome_iff_eq_none.1 hs
    refine ⟨fun hsome => absurd hsome hs, fun _ => ?_, fun hinv x hx => ?_⟩
    · simp [switch_default_connection, hnone]
    · simp only [switch_default_connection, hnone, Option.isSome_none,
        Bool.false_eq_true, if_false] at hx ⊢
      exact hinv x hx

/-- Witness for C10: switching the default of `poolAB` to the registered
host `b`, and failing to switch it to the unregistered `c`. -/
theorem switch_default_connection_spec_witness :
    switch_default_connection poolAB "b" =
      ({ poolAB with defaultHost := some "b" },
       "Default connection switched to \x27b\x27") ∧
    (switch_default_connection poolAB "c").1 = poolAB := by
  constructor
  · exact (switch_default_connection_spec poolAB "b").1 (by decide)
  · rw [(switch_default_connection_spec poolAB "c").2.1 (by decide)]

/-- C3: the error contract of `get_connection`.  With the host id omitted
it substitutes the current default and raises `noConnectionsAvailable`
exactly when no default is set; an unregistered host id raises
`hostNotFound` carrying the list of known host ids; and when a registered
host's missing decode-mode variant must be lazily built and the build or
probe fails, it raises `lazyCreateFailed` naming the host id and mode and
returns a state whose `_connections` and `_configs` are untouched (only
the embedding's allocation counter advanced), so previously cached
variants of the host remain present and unchanged. -/
theorem get_connection_error_contract (env : Env) (s : PoolState) (d : Bool) :
    ((get_connection env s none d).2 =
        Except.error PoolError.noConnectionsAvailable ↔ s.defaultHost = none) ∧
    (∀ H, s.defaultHost = some H →
        get_connection env s none d = get_connection env s (some H) d) ∧
    (∀ H, alookup H s.connections = none →
        get_connection env s (some H) d =
          (s, Except.error
                (PoolError.hostNotFound H (s.connections.map Prod.fst)))) ∧
    (∀ H variants cfg detail,
        alookup H s.connections = some variants →
        alookup (decodeTypeOf d) variants = none →
        alookup H s.configs = some cfg →
        env.build s.nextHandle = BuildResult.fail detail →
        get_connection env s (some H) d =
          ({ s with nextHandle := s.nextHandle + 1 },
           Except.error
             (PoolError.lazyCreateFailed H (decodeTypeOf d) detail))) := by
  refine ⟨?_, ?_, ?_, ?_⟩
  · cases hdef : s.defaultHost with
    | none => simp [get_connection, hdef]
    | some H =>
        simp only [get_connection, hdef]
        constructor
        · intro habs
          cases halook : alookup H s.connections with
          | none => simp [halook] at habs
          | some variants =>
              cases hvar : alookup (decodeTypeOf d) variants with
              | some conn => simp [halook, hvar] at habs
              | none =>
                  cases hcfg : alookup H s.configs with
                  | none => simp [halook, hvar, hcfg] at habs
                  | some cfg =>
                      cases hb : env.build s.nextHandle with
                      | ok => simp [halook, hvar, hcfg, hb] at habs
                      | fail detail => simp [halook, hvar, hcfg, hb] at habs
        · intro habs
          simp at habs
  · intro H hdef
    simp [get_connection, hdef]
  · intro H hlook
    simp [get_connection, hlook]
  · intro H variants cfg detail hlook hvar hcfg hb
    simp [get_connection, hlook, hvar, hcfg, hb]

/-- Witness for C3: from the empty pool a host-less get raises
`noConnectionsAvailable`; on `poolAB`, an unknown host raises
`hostNotFound` listing `a` and `b`, and a failing lazy RAW build for `a`
raises `lazyCreateFailed` naming `a` and `raw` while leaving the entry
map and config map unchanged. -/
theorem get_connection_error_contract_witness :
    (get_connection envAllOk initialState none true).2 =
      Except.error PoolError.noConnectionsAvailable ∧
    get_connection envAllOk poolAB (some "c") true =
      (poolAB, Except.error (PoolError.hostNotFound "c" ["a", "b"])) ∧
    get_connection envAllFail poolAB (some "a") false =
      ({ poolAB with nextHandle := 3 },
       Except.error
         (PoolError.lazyCreateFailed "a" DecodeResponsesType.RAW
           "Connection refused")) := by
  refine ⟨?_, ?_, ?_⟩
  · exact (get_connection_error_contract envAllOk initialState true).1.2 rfl
  · exact (get_connection_error_contract envAllOk poolAB true).2.2.1 "c" rfl
  · exact (get_connection_error_contract envAllFail poolAB false).2.2.2 "a"
      [(DecodeResponsesType.DECODED, 0)] [] "Connection refused" rfl rfl rfl rfl

theorem get_cache_hit (env : Env) (t : PoolState) (H : HostId) (d : Bool)
    (variants : List (DecodeResponsesType × Nat)) (conn : Nat)
    (hlook : alookup H t.connections = some variants)
    (hvar : alookup (decodeTypeOf d) variants = some conn) :
    get_connection env t (some H) d = (t, Except.ok conn) := by
  simp [get_connection, hlook, hvar]

theorem add_success_lookup (env : Env) (s : PoolState) (H : HostId)
    (cfg : Config) (d : Bool) (hok : env.build s.nextHandle = BuildResult.ok) :
    alookup H ((add_connection env s H cfg d).1).connections =
      some (aupsert (decodeTypeOf d) s.nextHandle
              ((alookup H s.connections).getD [])) := by
  simp only [add_connection, hok]
  by_cases hpres : (alookup H s.connections).isSome
  · obtain ⟨vs, hvs⟩ := Option.isSome_iff_exists.1 hpres
    simp [hpres, alookup_aupdate_self, hvs]
  · have hnone : alookup H s.connections = none :=
      Option.not_isSome_iff_eq_none.1 hpres
    simp only [hpres, if_false, Bool.false_eq_true]
    rw [alookup_aupdate_self,
        alookup_append_right H s.connections [(H, [])] hnone, hnone]
    simp [alookup]

theorem add_success_config_lookup (env : Env) (s : PoolState) (H : HostId)
    (cfg : Config) (d : Bool) (hok : env.build s.nextHandle = BuildResult.ok) :
    alookup H ((add_connection env s H cfg d).1).configs = some cfg := by
  simp only [add_connection, hok]
  exact alookup_aupsert_self H cfg s.configs

theorem add_success_nextHandle (env : Env) (s : PoolState) (H : HostId)
    (cfg : Config) (d : Bool) (hok : env.build s.nextHandle = BuildResult.ok) :
    ((add_connection env s H cfg d).1).nextHandle = s.nextHandle + 1 := by
  simp only [add_connection, hok]

/-- C2: after a successful `add_connection(H, cfg, DECODED)`, every
`get_connection(H, DECODED)` — under any environment, so without
consulting the build oracle — returns the cached handle built by the add
and leaves the state unchanged (hence repeated calls are identity-equal);
the first `get_connection(H, RAW)` performs exactly one lazy construction
(the allocation counter advances by one and the fresh handle is returned),
after which both the RAW and the DECODED handle are cached,
identity-stable, and returned with no further construction under any
environment.  `hraw` says no stale RAW handle for `H` predates the add
(trivially true when `H` is new). -/
theorem add_then_get_caching (env env2 : Env) (s : PoolState) (H : HostId)
    (cfg : Config) (hok : env.build s.nextHandle = BuildResult.ok)
    (hraw : alookup DecodeResponsesType.RAW
      ((alookup H s.connections).getD []) = none) :
    (∀ envA, get_connection envA (add_connection env s H cfg true).1 (some H) true =
      ((add_connection env s H cfg true).1, Except.ok s.nextHandle)) ∧
    (env2.build ((add_connection env s H cfg true).1).nextHandle = BuildResult.ok →
      (get_connection env2 (add_connection env s H cfg true).1 (some H) false).2 =
        Except.ok ((add_connection env s H cfg true).1).nextHandle ∧
      ((get_connection env2 (add_connection env s H cfg true).1 (some H) false).1).nextHandle =
        ((add_connection env s H cfg true).1).nextHandle + 1 ∧
      (∀ envB, get_connection envB
          (get_connection env2 (add_connection env s H cfg true).1 (some H) false).1
          (some H) false =
        ((get_connection env2 (add_connection env s H cfg true).1 (some H) false).1,
         Except.ok ((add_connection env s H cfg true).1).nextHandle)) ∧
      (∀ envB, get_connection envB
          (get_connection env2 (add_connection env s H cfg true).1 (some H) false).1
          (some H) true =
        ((get_connection env2 (add_connection env s H cfg true).1 (some H) false).1,
         Except.ok s.nextHandle))) := by
  have hconn1 := add_success_lookup env s H cfg true hok
  have hcfg1 := add_success_config_lookup env s H cfg true hok
  have hdec : decodeTypeOf true = DecodeResponsesType.DECODED := rfl
  rw [hdec] at hconn1
  constructor
  · intro envA
    exact get_cache_hit envA _ H true _ s.nextHandle hconn1
      (by rw [hdec]; exact alookup_aupsert_self _ _ _)
  · intro h2ok
    have hrawlook : alookup DecodeResponsesType.RAW
        (aupsert DecodeResponsesType.DECODED s.nextHandle
          ((alookup H s.connections).getD [])) = none := by
      rw [alookup_aupsert_ne DecodeResponsesType.DECODED DecodeResponsesType.RAW
        _ _ (by simp)]
      exact hraw
    have hr : get_connection env2 (add_connection env s H cfg true).1 (some H) false =
        ({ (add_connection env s H cfg true).1 with
            connections := aupdate H
              (aupsert DecodeResponsesType.RAW
                ((add_connection env s H cfg true).1).nextHandle)
              ((add_connection env s H cfg true).1).connections
            nextHandle := ((add_connection env s H cfg true).1).nextHandle + 1 },
         Except.ok ((add_connection env s H cfg true).1).nextHandle) := by
      simp [get_connection, hconn1, decodeTypeOf, hrawlook, hcfg1, h2ok]
    have hs2 : (get_connection env2 (add_connection env s H cfg true).1 (some H) false).1 =
        { (add_connection env s H cfg true).1 with
            connections := aupdate H
              (aupsert DecodeResponsesType.RAW
                ((add_connection env s H cfg true).1).nextHandle)
              ((add_connection env s H cfg true).1).connections
            nextHandle := ((add_connection env s H cfg true).1).nextHandle + 1 } := by
      rw [hr]
    have hconn2 : alookup H
        ((get_connection env2 (add_connection env s H cfg true).1 (some H) false).1).connections =
        some (aupsert DecodeResponsesType.RAW
          ((add_connection env s H cfg true).1).nextHandle
          (aupsert DecodeResponsesType.DECODED s.nextHandle
            ((alookup H s.connections).getD []))) := by
      rw [hs2]
      show alookup H (aupdate H (aupsert DecodeResponsesType.RAW
        ((add_connection env s H cfg true).1).nextHandle)
        ((add_connection env s H cfg true).1).connections) = _
      rw [alookup_aupdate_self, hconn1]
      rfl
    refine ⟨?_, ?_, ?_, ?_⟩
    · rw [hr]
    · rw [hs2]
    · intro envB
      rw [hs2] at hconn2 ⊢
      exact get_cache_hit envB _ H false _ _ hconn2 (alookup_aupsert_self _ _ _)
    · intro envB
      have hdlook : alookup (decodeTypeOf true)
          (aupsert DecodeResponsesType.RAW
            ((add_connection env s H cfg true).1).nextHandle
            (aupsert DecodeResponsesType.DECODED s.nextHandle
              ((alookup H s.connections).getD []))) = some s.nextHandle := by
        rw [hdec, alookup_aupsert_ne DecodeResponsesType.RAW
          DecodeResponsesType.DECODED _ _ (by simp)]
        exact alookup_aupsert_self _ _ _
      rw [hs2] at hconn2 ⊢
      exact get_cache_hit envB _ H true _ s.nextHandle hconn2 hdlook

/-- Witness for C2: fresh host `h` on the empty pool, all builds
succeeding — the DECODED handle is `0`, the lazily built RAW handle is
`1`. -/
theorem add_then_get_caching_witness :
    get_connection envAllOk (add_connection envAllOk initialState "h" [] true).1
        (some "h") true =
      ((add_connection envAllOk initialState "h" [] true).1, Except.ok 0) ∧
    (get_connection envAllOk (add_connection envAllOk initialState "h" [] true).1
        (some "h") false).2 = Except.ok 1 := by
  have h := add_then_get_caching envAllOk envAllOk initialState "h" [] rfl rfl
  exact ⟨h.1 envAllOk, (h.2 rfl).1⟩

theorem add_default_preserved (env : Env) (s : PoolState) (h : HostId)
    (c : Config) (d : Bool) (x : HostId) (hx : s.defaultHost = some x) :
    ((add_connection env s h c d).1).defaultHost = some x := by
  cases hb : env.build s.nextHandle with
  | ok => simp [add_connection, hb, hx]
  | fail detail => simp [add_connection, hb, hx]

theorem runAdds_default_preserved (env : Env) (s : PoolState)
    (calls : List AddCall) (x : HostId) (hx : s.defaultHost = some x) :
    (runAdds env s calls).defaultHost = some x := by
  induction calls generalizing s with
  | nil => exact hx
  | cons hd t ih =>
      obtain ⟨h, c, d⟩ := hd
      exact ih _ (add_default_preserved env s h c d x hx)

theorem runAdds_default_of_none (env : Env) (s : PoolState)
    (calls : List AddCall) (h0 : s.defaultHost = none) :
    (runAdds env s calls).defaultHost =
      firstSuccessfulHost env s.nextHandle calls := by
  induction calls generalizing s with
  | nil => simpa [runAdds, firstSuccessfulHost] using h0
  | cons hd t ih =>
      obtain ⟨h, c, d⟩ := hd
      cases hb : env.build s.nextHandle with
      | ok =>
          have hdef : ((add_connection env s h c d).1).defaultHost = some h := by
            simp [add_connection, hb, h0]
          simp only [runAdds, firstSuccessfulHost, hb]
          exact runAdds_default_preserved env _ t h hdef
      | fail detail =>
          have hdef : ((add_connection env s h c d).1).defaultHost = none := by
            simp [add_connection, hb, h0]
          have hnh : ((add_connection env s h c d).1).nextHandle =
              s.nextHandle + 1 := by
            simp [add_connection, hb]
          simp only [runAdds, firstSuccessfulHost, hb]
          rw [ih _ hdef, hnh]

theorem runAdds_append (env : Env) (s : PoolState) (l1 l2 : List AddCall) :
    runAdds env s (l1 ++ l2) = runAdds env (runAdds env s l1) l2 := by
  induction l1 generalizing s with
  | nil => rfl
  | cons hd t ih =>
      obtain ⟨h, c, d⟩ := hd
      simp only [List.cons_append, runAdds]
      exact ih _

/-- C4: over any sequence of `add_connection` calls with distinct host ids
and no removals, starting from the fresh pool, the default host id ends up
equal to the host id of the first call whose build succeeded (`none` when
none succeeded), and — once some call has succeeded — stays that host id
across arbitrarily many further `add_connection` calls. -/
theorem default_host_is_first_successful_add (env : Env) (calls : List AddCall)
    (_hnodup : (calls.map fun c => c.1).Nodup) :
    (runAdds env initialState calls).defaultHost =
      firstSuccessfulHost env 0 calls ∧
    (∀ more : List AddCall, ∀ x,
      firstSuccessfulHost env 0 calls = some x →
      (runAdds env initialState (calls ++ more)).defaultHost = some x) := by
  constructor
  · exact runAdds_default_of_none env initialState calls rfl
  · intro more x hx
    rw [runAdds_append]
    refine runAdds_default_preserved env _ more x ?_
    rw [runAdds_default_of_none env initialState calls rfl]
    exact hx

/-- Environment whose first construction attempt fails and all later ones
succeed. -/
def envFirstFails : Env :=
  { build := fun n => if n = 0 then BuildResult.fail "Connection refused"
             else BuildResult.ok
    info := fun _ => Except.ok [("redis_version", "7.2.0")] }

/-- Witness for C4: with the first build failing, the default is the
second host, and stays so after a further successful add. -/
theorem default_host_is_first_successful_add_witness :
    (runAdds envFirstFails initialState
      [("a", [], true), ("b", [], true)]).defaultHost = some "b" ∧
    (runAdds envFirstFails initialState
      [("a", [], true), ("b", [], true), ("c", [], true)]).defaultHost = some "b" := by
  have h := default_host_is_first_successful_add envFirstFails
    [("a", [], true), ("b", [], true)] (by decide)
  constructor
  · rw [h.1]
    rfl
  · exact h.2 [("c", [], true)] "b" rfl

/-- C7: `list_connections` is a total function of the registry state and
the probe oracle — it raises nothing even when every probe fails — and
every host that owns at least one cached client is reported: with a
`connected` status carrying the probed server version when its
`info("server")` probe answers, and with an `error: …` status carrying the
failure detail when the probe raises; one host's probe failure never
suppresses another host's entry. -/
theorem list_connections_reports_all (env : Env) (s : PoolState) :
    ∀ H variants conn, (H, variants) ∈ s.connections →
      pickConn variants = some conn →
      ∃ entry, (H, entry) ∈ list_connections env s ∧
        (∀ e, env.info conn = Except.error e → entry.status = "error: " ++ e) ∧
        (∀ i, env.info conn = Except.ok i →
          entry.status = "connected" ∧
          entry.redis_version = some ((alookup "redis_version" i).getD "unknown")) := by
  intro H variants conn hmem hpick
  cases hinfo : env.info conn with
  | ok i =>
      refine ⟨{ status := "connected"
                redis_version := some ((alookup "redis_version" i).getD "unknown")
                host := dictGet ((alookup H s.configs).getD []) ConfigKey.host
                  (Value.str "unknown")
                port := dictGet ((alookup H s.configs).getD []) ConfigKey.port
                  (Value.str "unknown")
                db := dictGet ((alookup H s.configs).getD []) ConfigKey.db
                  (Value.str "unknown")
                cluster_mode := dictGet ((alookup H s.configs).getD [])
                  ConfigKey.cluster_mode (Value.bool false)
                ssl := dictGet ((alookup H s.configs).getD []) ConfigKey.ssl
                  (Value.bool false)
                is_default := s.defaultHost = some H
                available_modes := variants.map fun dv => dv.1.value },
              List.mem_filterMap.2 ⟨(H, variants), hmem, ?_⟩, ?_, ?_⟩
      · simp [hpick, hinfo]
      · intro e he
        exact Except.noConfusion he
      · intro i' hi'
        injection hi' with h
        subst h
        exact ⟨rfl, rfl⟩
  | error e =>
      refine ⟨{ status := "error: " ++ e
                redis_version := none
                host := dictGet ((alookup H s.configs).getD []) ConfigKey.host
                  (Value.str "unknown")
                port := dictGet ((alookup H s.configs).getD []) ConfigKey.port
                  (Value.str "unknown")
                db := dictGet ((alookup H s.configs).getD []) ConfigKey.db
                  (Value.str "unknown")
                cluster_mode := dictGet ((alookup H s.configs).getD [])
                  ConfigKey.cluster_mode (Value.bool false)
                ssl := dictGet ((alookup H s.configs).getD []) ConfigKey.ssl
                  (Value.bool false)
                is_default := s.defaultHost = some H
                available_modes := variants.map fun dv => dv.1.value },
              List.mem_filterMap.2 ⟨(H, variants), hmem, ?_⟩, ?_, ?_⟩
      · simp [hpick, hinfo]
      · intro e' he'
        injection he' with h
        subst h
        rfl
      · intro i hi
        exact Except.noConfusion hi

/-- Witness for C7: on `poolAB` with every probe failing, both hosts are
reported with the error status. -/
theorem list_connections_reports_all_witness :
    (∃ entry, ("a", entry) ∈ list_connections envAllFail poolAB ∧
      entry.status = "error: Connection refused") ∧
    (∃ entry, ("b", entry) ∈ list_connections envAllFail poolAB ∧
      entry.status = "error: Connection refused") := by
  constructor
  · obtain ⟨entry, hmem, herr, _⟩ := list_connections_reports_all envAllFail poolAB
      "a" [(DecodeResponsesType.DECODED, 0)] 0 (by simp [poolAB]) rfl
    exact ⟨entry, hmem, herr "Connection refused" rfl⟩
  · obtain ⟨entry, hmem, herr, _⟩ := list_connections_reports_all envAllFail poolAB
      "b" [(DecodeResponsesType.RAW, 1)] 1 (by simp [poolAB]) rfl
    exact ⟨entry, hmem, herr "Connection refused" rfl⟩

/-- C8: the legacy facade auto-provisions exactly when the registry has
zero entries and no host id was given: it registers a connection built
from the process-wide default configuration under host id `host:port`
(whose fresh handle the delegated registry lookup then returns, with
`host:port` registered, its config stored, and made default); with an
explicit host id, or with a non-empty registry, it delegates straight to
the registry's `get_connection` with no auto-provisioning.  `hinv` is the
reachable-state fact that an empty registry has no default. -/
theorem manager_auto_provision_spec (env : Env) (dc : RedisConfig)
    (s : PoolState) (d : Bool)
    (hinv : s.connections = [] → s.defaultHost = none) :
    (s.connections = [] → env.build s.nextHandle = BuildResult.ok →
      alookup (dc.host ++ ":" ++ toString dc.port)
          ((manager_get_connection env dc s none d).1).connections =
        some [(decodeTypeOf d, s.nextHandle)] ∧
      alookup (dc.host ++ ":" ++ toString dc.port)
          ((manager_get_connection env dc s none d).1).configs = some dc.config ∧
      ((manager_get_connection env dc s none d).1).defaultHost =
        some (dc.host ++ ":" ++ toString dc.port) ∧
      (manager_get_connection env dc s none d).2 = Except.ok s.nextHandle) ∧
    (∀ H, manager_get_connection env dc s (some H) d =
      get_connection env s (some H) d) ∧
    (s.connections ≠ [] →
      manager_get_connection env dc s none d = get_connection env s none d) := by
  refine ⟨?_, ?_, ?_⟩
  · intro hemp hok
    have hdef := hinv hemp
    have hok2 : (add_connection env s (dc.host ++ ":" ++ toString dc.port)
        dc.config d).2 = Except.ok ("Successfully connected to Redis at " ++
          (dc.host ++ ":" ++ toString dc.port) ++ " (" ++
          (decodeTypeOf d).value ++ " mode)") := by
      simp [add_connection, hok]
    have hc : alookup (dc.host ++ ":" ++ toString dc.port)
        ((add_connection env s (dc.host ++ ":" ++ toString dc.port)
          dc.config d).1).connections = some [(decodeTypeOf d, s.nextHandle)] := by
      have := add_success_lookup env s (dc.host ++ ":" ++ toString dc.port)
        dc.config d hok
      rw [hemp] at this
      simpa [alookup, aupsert] using this
    have hcfg := add_success_config_lookup env s
      (dc.host ++ ":" ++ toString dc.port) dc.config d hok
    have hdefS1 : ((add_connection env s (dc.host ++ ":" ++ toString dc.port)
        dc.config d).1).defaultHost = some (dc.host ++ ":" ++ toString dc.port) := by
      simp [add_connection, hok, hdef]
    have hm : manager_get_connection env dc s none d =
        get_connection env
          (add_connection env s (dc.host ++ ":" ++ toString dc.port) dc.config d).1
          (some (dc.host ++ ":" ++ toString dc.port)) d := by
      simp only [manager_get_connection, hemp, hdef, List.isEmpty_nil,
        Option.isNone_none, Bool.and_self, if_true, hok2]
    have hget := get_cache_hit env
      (add_connection env s (dc.host ++ ":" ++ toString dc.port) dc.config d).1
      (dc.host ++ ":" ++ toString dc.port) d [(decodeTypeOf d, s.nextHandle)]
      s.nextHandle hc (by simp [alookup])
    rw [hm, hget]
    exact ⟨hc, hcfg, hdefS1, rfl⟩
  · intro H
    simp [manager_get_connection]
  · intro hne
    have hne' : s.connections.isEmpty = false := by
      cases hc : s.connections with
      | nil => exact absurd hc hne
      | cons a t => rfl
    cases hd : s.defaultHost with
    | none => simp [manager_get_connection, hne', hd, get_connection]
    | some x => simp [manager_get_connection, hne', hd, get_connection]

/-- The process-wide default configuration used by the C8 witness. -/
def defaultRedisConfig : RedisConfig :=
  { host := "127.0.0.1"
    port := 6379
    config := [(ConfigKey.host, some (Value.str "127.0.0.1")),
               (ConfigKey.port, some (Value.nat 6379))] }

/-- Witness for C8: on the empty pool with builds succeeding, the facade
auto-provisions `127.0.0.1:6379`, makes it the default and returns the
fresh handle; on `poolAB` it delegates without provisioning. -/
theorem manager_auto_provision_spec_witness :
    ((manager_get_connection envAllOk defaultRedisConfig initialState none
        true).1).defaultHost = some "127.0.0.1:6379" ∧
    (manager_get_connection envAllOk defaultRedisConfig initialState none true).2 =
      Except.ok 0 ∧
    manager_get_connection envAllOk defaultRedisConfig poolAB none true =
      get_connection envAllOk poolAB none true := by
  have h := manager_auto_provision_spec envAllOk defaultRedisConfig initialState
    true (fun _ => rfl)
  have ha := h.1 rfl rfl
  have h2 := manager_auto_provision_spec envAllOk defaultRedisConfig poolAB
    true (by intro hcontra; exact absurd hcontra (by simp [poolAB]))
  exact ⟨ha.2.2.1, ha.2.2.2, h2.2.2 (by simp [poolAB])⟩

end McpRedis
